import Mathlib

/-!
Shallow embedding of `run_tcpping_worker` from `src/tcpping.rs` of the
stabping repository, together with theorems checking the specification's
claims about the worker's round loop, per-address probers, and result-row
assembly.

The worker does I/O (wall-clock reads, DNS resolution, TCP connects,
channel sends); the embedding makes the environment explicit: each probe
attempt is driven by an `AttemptEnv` describing what the network did
(resolution outcome, time consumed by each call), a round is driven by a
`RoundEnv` describing the two `options_read()` results, the clock values,
and the outbound-channel state. Pure computations (row assembly, the
average, the pacing arithmetic) are translated directly from the source.
-/

namespace Stabping

/-- Rust's `as i32` truncating cast applied to a `u64` value (modelled as `Nat`):
keep the low 32 bits and reinterpret them as a signed 32-bit integer. -/
def u64ToI32 (n : Nat) : Int :=
  let m := n % 4294967296
  if m < 2147483648 then (m : Int) else (m : Int) - 4294967296

/-- Modelled from the spec: the constant `SENTINEL_ERROR` is declared in
`src/options.rs`, which is not among the provided sources; the spec describes
it as "a reserved out-of-range sentinel integer" lying above the half-open
range `[0, sentinel)` of valid microsecond durations, so it is modelled as the
largest signed 32-bit integer. -/
def SENTINEL_ERROR : Int := 2147483647

/-- Observable steps of one probe attempt, in the order the source performs
them (`src/tcpping.rs` lines 75-87). `timerStart` records the clock value read
by `precise_time_ns()` at line 75; `resolve` records whether
`to_socket_addrs()` returned `Ok`; `connect` records the socket address passed
to `TcpStream::connect_timeout` and its result; `timerStop` records the
elapsed value `precise_time_ns() - start` accumulated into `sum`; `sleep` is
the unconditional `thread::sleep(dur_pause)` at line 86. -/
inductive ProbeEvent
  | timerStart (t : Nat)
  | resolve (ok : Bool)
  | connect (addr : Nat) (ok : Bool)
  | timerStop (elapsed : Nat)
  | sleep (ns : Nat)
  deriving DecidableEq

/-- Is an event a connection attempt? -/
def ProbeEvent.isConn : ProbeEvent → Bool
  | .connect _ _ => true
  | _ => false

/-- Is an event the inter-attempt sleep? -/
def ProbeEvent.isSleep : ProbeEvent → Bool
  | .sleep _ => true
  | _ => false

/-- Environment of a single probe attempt: what the network and OS do during
this attempt. `resolved` is the result of `a.as_str().to_socket_addrs()`
(`none` for `Err`, otherwise the iterator's contents, socket addresses being
modelled as opaque `Nat` identifiers); `resolveNs` is the wall-clock time the
resolution call consumes; `connectOk` is the result of
`TcpStream::connect_timeout` on the first resolved address (meaningful only
when one exists) and `connectNs` the wall-clock time that call consumes. -/
structure AttemptEnv where
  resolved : Option (List Nat)
  resolveNs : Nat
  connectOk : Bool
  connectNs : Nat
  deriving DecidableEq

/-- Whether the attempt succeeds in the source: resolution returned `Ok`, the
iterator was non-empty, and the connection attempt succeeded. -/
def attemptSuccess (e : AttemptEnv) : Bool :=
  match e.resolved with
  | some (_ :: _) => e.connectOk
  | _ => false

/-- The duration the attempt's timer measures on success: the timer is read at
line 75, before the resolution call, and again at line 81, after the
connection call, so it spans both. -/
def attemptElapsed (e : AttemptEnv) : Nat :=
  e.resolveNs + e.connectNs

/-- Result of one probe attempt: the amounts added to the prober's `sum` and
`denom` accumulators, the wall clock after the attempt, and the trace of
observable events. -/
structure AttemptResult where
  sumDelta : Nat
  denomDelta : Nat
  clock : Nat
  events : List ProbeEvent
  deriving DecidableEq

/-- One iteration of the prober's `for _ in 0..avg_across` loop
(`src/tcpping.rs` lines 70-87), started at wall clock `t` (nanoseconds).
`start` is read by `precise_time_ns()` BEFORE the resolution call; the
resolution call advances the clock by `resolveNs`; on a non-empty resolution
the connection call advances it by `connectNs`; on success the accumulated
elapsed is the clock after the connection minus `start`. Every path ends with
`thread::sleep(dur_pause)`. -/
def runAttempt (pauseNs : Nat) (e : AttemptEnv) (t : Nat) : AttemptResult :=
  let start := t
  match e.resolved with
  | none =>
      let t1 := t + e.resolveNs
      { sumDelta := 0, denomDelta := 0, clock := t1 + pauseNs,
        events := [.timerStart start, .resolve false, .sleep pauseNs] }
  | some [] =>
      let t1 := t + e.resolveNs
      { sumDelta := 0, denomDelta := 0, clock := t1 + pauseNs,
        events := [.timerStart start, .resolve true, .sleep pauseNs] }
  | some (a :: _) =>
      let t1 := t + e.resolveNs
      let t2 := t1 + e.connectNs
      if e.connectOk then
        { sumDelta := t2 - start, denomDelta := 1, clock := t2 + pauseNs,
          events := [.timerStart start, .resolve true, .connect a true,
                     .timerStop (t2 - start), .sleep pauseNs] }
      else
        { sumDelta := 0, denomDelta := 0, clock := t2 + pauseNs,
          events := [.timerStart start, .resolve true, .connect a false,
                     .sleep pauseNs] }

/-- State of one prober thread: the `sum` and `denom` accumulators of
`src/tcpping.rs` lines 67-68, the wall clock, and the accumulated event
trace. -/
structure ProberState where
  sum : Nat
  denom : Nat
  clock : Nat
  events : List ProbeEvent
  deriving DecidableEq

/-- Process attempt number `i` of a prober whose attempts are driven by
`envs`. -/
def proberStep (pauseNs : Nat) (envs : Nat → AttemptEnv)
    (s : ProberState) (i : Nat) : ProberState :=
  let r := runAttempt pauseNs (envs i) s.clock
  { sum := s.sum + r.sumDelta, denom := s.denom + r.denomDelta,
    clock := r.clock, events := s.events ++ r.events }

/-- The prober's full loop over `avg_across` attempts (`src/tcpping.rs`
lines 66-87), started at wall clock `t0`. -/
def runProberState (avg pauseNs : Nat) (envs : Nat → AttemptEnv)
    (t0 : Nat) : ProberState :=
  (List.range avg).foldl (proberStep pauseNs envs) ⟨0, 0, t0, []⟩

/-- The value the prober sends on its channel, if any (`src/tcpping.rs`
lines 89-98): when `denom != 0` it sends `(sum / denom / 1000) as i32`,
otherwise it sends nothing and the sender is dropped. -/
def proberSent (avg pauseNs : Nat) (envs : Nat → AttemptEnv)
    (t0 : Nat) : Option Int :=
  let s := runProberState avg pauseNs envs t0
  if s.denom ≠ 0 then some (u64ToI32 (s.sum / s.denom / 1000)) else none

/-- The truncated mean of the prober's accumulated elapsed times, in
microseconds, before the `as i32` cast. -/
def proberMeanMicros (avg pauseNs : Nat) (envs : Nat → AttemptEnv)
    (t0 : Nat) : Nat :=
  let s := runProberState avg pauseNs envs t0
  s.sum / s.denom / 1000

/-- One `options_read()` result: the fields of the target's options used by
the worker (`interval` and `pause` in milliseconds, `avg_across` the number
of attempts to average, `addrs` the ordered address list, `nonce` the
configuration version tag). -/
structure Options where
  interval : Nat
  avg_across : Nat
  pause : Nat
  addrs : List String
  nonce : Int
  deriving DecidableEq

/-- Environment of one round of the worker loop. The source calls
`manager.options_read()` twice per round — once at lines 37-45 and once at
lines 50-102 — and the configuration may be mutated externally between the
two calls, so the two results `opt1` and `opt2` are separate inputs.
`kind_id` is `manager.kind.kind_id()`, `timestamp` the i32-truncated
wall-clock seconds of line 48, `probe a i` the environment of attempt `i` of
the prober spawned for address `a`, `sendOk` whether `results_out.send`
succeeds, and `elapsedNs` the value of `loop_start.elapsed()` read at
line 128. -/
structure RoundEnv where
  opt1 : Options
  opt2 : Options
  kind_id : Int
  timestamp : Int
  probe : String → Nat → AttemptEnv
  sendOk : Bool
  elapsedNs : Nat

/-- What one round of the worker loop produces and which option values it
used: the assembled row, the interval/avg/pause taken from the first read,
the address list and nonce taken from the second read, the end-of-round
sleep, and whether the failed-send log line fired. -/
structure RoundResult where
  row : List Int
  intervalNs : Nat
  avgAcross : Nat
  pauseNs : Nat
  usedAddrs : List String
  usedNonce : Int
  sleepNs : Nat
  logged : Bool
  deriving DecidableEq

/-- Aggregator side of one channel (`src/tcpping.rs` lines 113-120): a
successful `recv` yields the sent value; a `recv` on a channel whose sender
was dropped without sending yields `SENTINEL_ERROR`. -/
def outcomeToVal : Option Int → Int
  | some v => v
  | none => SENTINEL_ERROR

/-- One round of the worker loop (`src/tcpping.rs` lines 33-131).
`dur_interval`, `avg_across` and `dur_pause` come from the FIRST
`options_read()`; the spawned probers and the `nonce` come from the SECOND;
the row is `[kind_id, nonce, timestamp]` followed by one outcome per address
of the second read, in that read's address order (the `handles` vector is
filled in spawn order and drained in the same order); a failed outbound send
is only logged; finally the loop sleeps for the remainder of the interval. -/
def runRound (env : RoundEnv) : RoundResult :=
  let intervalNs := env.opt1.interval * 1000000
  let avg := env.opt1.avg_across
  let pauseNs := env.opt1.pause * 1000000
  let sent := env.opt2.addrs.map (fun a => proberSent avg pauseNs (env.probe a) 0)
  let nonce := env.opt2.nonce
  let row := env.kind_id :: nonce :: env.timestamp :: sent.map outcomeToVal
  let sleepNs := if env.elapsedNs < intervalNs then intervalNs - env.elapsedNs else 0
  { row := row, intervalNs := intervalNs, avgAcross := avg, pauseNs := pauseNs,
    usedAddrs := env.opt2.addrs, usedNonce := nonce, sleepNs := sleepNs,
    logged := !env.sendOk }

/-- Start of the next round: the current round started at wall clock `t`,
its work took `env.elapsedNs`, and the loop then sleeps for the remainder of
the interval (`src/tcpping.rs` lines 128-131). -/
def nextRoundStart (t : Nat) (env : RoundEnv) : Nat :=
  t + env.elapsedNs + (runRound env).sleepNs

/-- A round result drew all five option fields from the single options value
`o`: the spec's notion of using one atomically-consistent snapshot. -/
def usesSnapshot (r : RoundResult) (o : Options) : Prop :=
  r.intervalNs = o.interval * 1000000 ∧ r.avgAcross = o.avg_across ∧
  r.pauseNs = o.pause * 1000000 ∧ r.usedAddrs = o.addrs ∧ r.usedNonce = o.nonce

instance (r : RoundResult) (o : Options) : Decidable (usesSnapshot r o) := by
  unfold usesSnapshot; exact inferInstance

/-- The elapsed times of the successful attempts among the first `avg`
attempts, in attempt order: what the prober's `sum` accumulates. -/
def successList (avg : Nat) (envs : Nat → AttemptEnv) : List Nat :=
  ((List.range avg).filter (fun i => attemptSuccess (envs i))).map
    (fun i => attemptElapsed (envs i))

theorem runAttempt_sumDelta (pauseNs : Nat) (e : AttemptEnv) (t : Nat) :
    (runAttempt pauseNs e t).sumDelta =
      if attemptSuccess e then attemptElapsed e else 0 := by
  rcases e with ⟨res, rNs, cOk, cNs⟩
  match res, cOk with
  | none, _ => simp [runAttempt, attemptSuccess]
  | some [], _ => simp [runAttempt, attemptSuccess]
  | some (a :: rest), true =>
      simp [runAttempt, attemptSuccess, attemptElapsed]; omega
  | some (a :: rest), false => simp [runAttempt, attemptSuccess]

theorem runAttempt_denomDelta (pauseNs : Nat) (e : AttemptEnv) (t : Nat) :
    (runAttempt pauseNs e t).denomDelta = if attemptSuccess e then 1 else 0 := by
  rcases e with ⟨res, rNs, cOk, cNs⟩
  match res, cOk with
  | none, _ => simp [runAttempt, attemptSuccess]
  | some [], _ => simp [runAttempt, attemptSuccess]
  | some (a :: rest), true => simp [runAttempt, attemptSuccess]
  | some (a :: rest), false => simp [runAttempt, attemptSuccess]

theorem runAttempt_events_head (pauseNs : Nat) (e : AttemptEnv) (t : Nat) :
    (runAttempt pauseNs e t).events.head? = some (.timerStart t) := by
  rcases e with ⟨res, rNs, cOk, cNs⟩
  match res, cOk with
  | none, _ => simp [runAttempt]
  | some [], _ => simp [runAttempt]
  | some (a :: rest), true => simp [runAttempt]
  | some (a :: rest), false => simp [runAttempt]

theorem runAttempt_events_getLast (pauseNs : Nat) (e : AttemptEnv) (t : Nat) :
    (runAttempt pauseNs e t).events.getLast? = some (.sleep pauseNs) := by
  rcases e with ⟨res, rNs, cOk, cNs⟩
  match res, cOk with
  | none, _ => simp [runAttempt]
  | some [], _ => simp [runAttempt]
  | some (a :: rest), true => simp [runAttempt]
  | some (a :: rest), false => simp [runAttempt]

theorem runAttempt_events_countSleep (pauseNs : Nat) (e : AttemptEnv) (t : Nat) :
    (runAttempt pauseNs e t).events.countP ProbeEvent.isSleep = 1 := by
  rcases e with ⟨res, rNs, cOk, cNs⟩
  match res, cOk with
  | none, _ => simp [runAttempt, List.countP, List.countP.go, ProbeEvent.isSleep]
  | some [], _ => simp [runAttempt, List.countP, List.countP.go, ProbeEvent.isSleep]
  | some (a :: rest), true =>
      simp [runAttempt, List.countP, List.countP.go, ProbeEvent.isSleep]
  | some (a :: rest), false =>
      simp [runAttempt, List.countP, List.countP.go, ProbeEvent.isSleep]

theorem runProberState_succ (avg pauseNs : Nat) (envs : Nat → AttemptEnv)
    (t0 : Nat) :
    runProberState (avg + 1) pauseNs envs t0 =
      proberStep pauseNs envs (runProberState avg pauseNs envs t0) avg := by
  unfold runProberState
  rw [List.range_succ, List.foldl_append]
  rfl

theorem successList_succ (avg : Nat) (envs : Nat → AttemptEnv) :
    successList (avg + 1) envs =
      successList avg envs ++
        (if attemptSuccess (envs avg) then [attemptElapsed (envs avg)] else []) := by
  unfold successList
  rw [List.range_succ, List.filter_append, List.map_append]
  by_cases h : attemptSuccess (envs avg) <;> simp [h]

theorem runProberState_sum (avg pauseNs : Nat) (envs : Nat → AttemptEnv)
    (t0 : Nat) :
    (runProberState avg pauseNs envs t0).sum = (successList avg envs).sum := by
  induction avg with
  | zero => rfl
  | succ n ih =>
      rw [runProberState_succ, successList_succ]
      by_cases h : attemptSuccess (envs n) <;>
        simp [proberStep, runAttempt_sumDelta, ih, h]

theorem runProberState_denom (avg pauseNs : Nat) (envs : Nat → AttemptEnv)
    (t0 : Nat) :
    (runProberState avg pauseNs envs t0).denom = (successList avg envs).length := by
  induction avg with
  | zero => rfl
  | succ n ih =>
      rw [runProberState_succ, successList_succ]
      by_cases h : attemptSuccess (envs n) <;>
        simp [proberStep, runAttempt_denomDelta, ih, h]

theorem runProberState_countSleep (avg pauseNs : Nat) (envs : Nat → AttemptEnv)
    (t0 : Nat) :
    (runProberState avg pauseNs envs t0).events.countP ProbeEvent.isSleep = avg := by
  induction avg with
  | zero => rfl
  | succ n ih =>
      rw [runProberState_succ]
      simp [proberStep, List.countP_append, ih, runAttempt_events_countSleep]

theorem runProberState_getLast (avg pauseNs : Nat) (envs : Nat → AttemptEnv)
    (t0 : Nat) (h : 0 < avg) :
    (runProberState avg pauseNs envs t0).events.getLast? =
      some (.sleep pauseNs) := by
  cases avg with
  | zero => omega
  | succ n =>
      rw [runProberState_succ]
      have hne : (runAttempt pauseNs (envs n)
          (runProberState n pauseNs envs t0).clock).events ≠ [] := by
        intro hnil
        have := runAttempt_events_getLast pauseNs (envs n)
          (runProberState n pauseNs envs t0).clock
        rw [hnil] at this
        simp at this
      simp only [proberStep]
      rw [List.getLast?_append_of_ne_nil _ hne, runAttempt_events_getLast]

theorem u64ToI32_of_lt (n : Nat) (h : n < 2147483648) : u64ToI32 n = n := by
  have h2 : n % 4294967296 = n := Nat.mod_eq_of_lt (by omega)
  simp [u64ToI32, h2, h]

theorem proberSent_eq_none_iff (avg pauseNs : Nat) (envs : Nat → AttemptEnv)
    (t0 : Nat) :
    proberSent avg pauseNs envs t0 = none ↔ successList avg envs = [] := by
  simp only [proberSent, runProberState_denom, runProberState_sum]
  by_cases h : (successList avg envs).length = 0
  · rw [List.length_eq_zero] at h
    simp [h]
  · have h2 : successList avg envs ≠ [] := by
      intro hnil
      exact h (by simp [hnil])
    simp [h, h2]

theorem proberSent_of_denom_pos (avg pauseNs : Nat) (envs : Nat → AttemptEnv)
    (t0 : Nat) (h : successList avg envs ≠ []) :
    proberSent avg pauseNs envs t0 =
      some (u64ToI32 ((successList avg envs).sum / (successList avg envs).length / 1000)) := by
  simp only [proberSent, runProberState_denom, runProberState_sum]
  have hl : (successList avg envs).length ≠ 0 := by
    simpa [List.length_eq_zero] using h
  simp [hl]

theorem proberMeanMicros_eq (avg pauseNs : Nat) (envs : Nat → AttemptEnv)
    (t0 : Nat) :
    proberMeanMicros avg pauseNs envs t0 =
      (successList avg envs).sum / (successList avg envs).length / 1000 := by
  simp [proberMeanMicros, runProberState_sum, runProberState_denom]

theorem proberSent_eq_some (avg pauseNs : Nat) (envs : Nat → AttemptEnv)
    (t0 : Nat) (w : Int) (h : proberSent avg pauseNs envs t0 = some w) :
    w = u64ToI32 (proberMeanMicros avg pauseNs envs t0) := by
  simp only [proberSent] at h
  by_cases hd : (runProberState avg pauseNs envs t0).denom = 0
  · simp [hd] at h
  · simp [hd] at h
    rw [← h]
    rfl

/-- An attempt environment in which every step works: resolution yields one
address instantly and the connection succeeds after 10 ms. -/
def okAttempt : AttemptEnv := ⟨some [0], 0, true, 10000000⟩

/-- An attempt environment in which resolution fails. -/
def failAttempt : AttemptEnv := ⟨none, 0, false, 0⟩

/-- C2: every emitted row is [kind, version, timestamp] followed by exactly
one value per address of the round's (second-read) snapshot, so its length is
3 + the number of addresses, and the per-target values appear in the
snapshot's address order, the Aggregator draining the channels in spawn
order. -/
theorem C2_row_shape (env : RoundEnv) :
    (runRound env).row.length = 3 + env.opt2.addrs.length ∧
    (runRound env).row.drop 3 =
      env.opt2.addrs.map (fun a =>
        outcomeToVal (proberSent env.opt1.avg_across (env.opt1.pause * 1000000)
          (env.probe a) 0)) := by
  constructor
  · simp [runRound]
    omega
  · show ((env.opt2.addrs.map _).map outcomeToVal) = _
    rw [List.map_map]
    rfl

/-- C3: a prober sends a value on its channel iff its success count `denom`
is nonzero; the Aggregator turns a successful receive into the received value
and a receive on a dropped, never-written channel into `SENTINEL_ERROR`. -/
theorem C3_send_iff_success :
    (∀ (avg pauseNs : Nat) (envs : Nat → AttemptEnv) (t0 : Nat),
        proberSent avg pauseNs envs t0 = none ↔
          (runProberState avg pauseNs envs t0).denom = 0) ∧
    (∀ v : Int, outcomeToVal (some v) = v) ∧
    outcomeToVal none = SENTINEL_ERROR := by
  refine ⟨?_, fun v => rfl, rfl⟩
  intro avg pauseNs envs t0
  rw [proberSent_eq_none_iff, runProberState_denom, List.length_eq_zero]

/-- C5: when at least one attempt succeeded, the value the prober sends is
the truncated integer mean of the successful attempts' accumulated elapsed
times, converted to microseconds (provided the mean fits in an i32, which the
30-second connection timeout keeps far below). -/
theorem C5_mean_value (avg pauseNs : Nat) (envs : Nat → AttemptEnv) (t0 : Nat)
    (h : successList avg envs ≠ [])
    (hb : (successList avg envs).sum / (successList avg envs).length / 1000
      < 2147483648) :
    proberSent avg pauseNs envs t0 =
      some (((successList avg envs).sum / (successList avg envs).length / 1000
        : Nat) : Int) := by
  rw [proberSent_of_denom_pos avg pauseNs envs t0 h, u64ToI32_of_lt _ hb]

/-- Witness for C5: three attempts that each succeed in 10 ms average to
10000 microseconds. -/
theorem C5_mean_value_witness :
    proberSent 3 0 (fun _ => okAttempt) 0 = some 10000 := by
  have h := C5_mean_value 3 0 (fun _ => okAttempt) 0 (by decide) (by decide)
  exact h.trans (by decide)

/-- C6: the prober sleeps for `pause` after every attempt — each attempt's
event trace ends with the sleep whatever its outcome, the full trace holds
exactly `avg_across` sleeps, and (when there is at least one attempt) the
final event of the whole run is the sleep following the last attempt. -/
theorem C6_pause_after_every_attempt (avg pauseNs : Nat)
    (envs : Nat → AttemptEnv) (t0 : Nat) :
    (∀ (e : AttemptEnv) (t : Nat),
        (runAttempt pauseNs e t).events.getLast? = some (.sleep pauseNs)) ∧
    (runProberState avg pauseNs envs t0).events.countP ProbeEvent.isSleep = avg ∧
    (0 < avg →
      (runProberState avg pauseNs envs t0).events.getLast? =
        some (.sleep pauseNs)) :=
  ⟨fun e t => runAttempt_events_getLast pauseNs e t,
   runProberState_countSleep avg pauseNs envs t0,
   fun h => runProberState_getLast avg pauseNs envs t0 h⟩

/-- Witness for C6: a two-attempt prober run sleeps twice and ends on a
sleep. -/
theorem C6_pause_witness :
    (runProberState 2 5 (fun _ => okAttempt) 0).events.countP
      ProbeEvent.isSleep = 2 ∧
    (runProberState 2 5 (fun _ => okAttempt) 0).events.getLast? =
      some (.sleep 5) := by
  have h := C6_pause_after_every_attempt 2 5 (fun _ => okAttempt) 0
  exact ⟨h.2.1, h.2.2 (by decide)⟩

/-- First options value of the C1 counterexample round. -/
def cexOpt1 : Options := ⟨1000, 2, 0, ["a.example:80"], 1⟩

/-- Second options value of the C1 counterexample round: the configuration
was mutated between the round's two `options_read()` calls. -/
def cexOpt2 : Options := ⟨500, 3, 5, ["a.example:80", "b.example:80"], 2⟩

/-- A round during which the configuration changed between the two
`options_read()` calls of `src/tcpping.rs` (lines 37-45 and 50-102). -/
def cexRound : RoundEnv := ⟨cexOpt1, cexOpt2, 7, 100, fun _ _ => failAttempt, true, 0⟩

/-- Counterexample to C1: when the configuration is mutated between the
round's two `options_read()` calls, the round uses neither read's options in
full — interval, repetitions and pause come from the first read while the
address list and version tag come from the second. -/
theorem C1_counterexample :
    ¬ usesSnapshot (runRound cexRound) cexRound.opt1 ∧
    ¬ usesSnapshot (runRound cexRound) cexRound.opt2 := by decide

/-- C1 (amended): each round performs two snapshot reads, not one. The
address list and the version tag are taken together from the second read, so
no round mixes the address list of one version with the version tag of
another; but the interval, repetitions and pause are taken from the first
read and can belong to a different configuration version. When the
configuration does not change between the two reads, the round uses one
consistent snapshot. -/
theorem C1_snapshot_reads (env : RoundEnv) :
    (runRound env).usedAddrs = env.opt2.addrs ∧
    (runRound env).usedNonce = env.opt2.nonce ∧
    (runRound env).intervalNs = env.opt1.interval * 1000000 ∧
    (runRound env).avgAcross = env.opt1.avg_across ∧
    (runRound env).pauseNs = env.opt1.pause * 1000000 ∧
    (runRound env).row =
      env.kind_id :: env.opt2.nonce :: env.timestamp ::
        env.opt2.addrs.map (fun a =>
          outcomeToVal (proberSent env.opt1.avg_across
            (env.opt1.pause * 1000000) (env.probe a) 0)) ∧
    (env.opt1 = env.opt2 → usesSnapshot (runRound env) env.opt2) := by
  refine ⟨rfl, rfl, rfl, rfl, rfl, ?_, ?_⟩
  · show env.kind_id :: env.opt2.nonce :: env.timestamp ::
      (env.opt2.addrs.map _).map outcomeToVal = _
    rw [List.map_map]
    rfl
  · intro h
    exact ⟨by rw [← h]; rfl, by rw [← h]; rfl, by rw [← h]; rfl, rfl, rfl⟩

/-- Witness for C1 (amended): a round whose two reads agree uses one
consistent snapshot. -/
theorem C1_snapshot_reads_witness :
    usesSnapshot
      (runRound ⟨cexOpt1, cexOpt1, 7, 100, fun _ _ => failAttempt, true, 0⟩)
      cexOpt1 := by
  have h := C1_snapshot_reads
    ⟨cexOpt1, cexOpt1, 7, 100, fun _ _ => failAttempt, true, 0⟩
  exact h.2.2.2.2.2.2 rfl

/-- A successful attempt whose resolution takes 5000 ns and whose connection
takes 7000 ns. -/
def c4Attempt : AttemptEnv := ⟨some [3], 5000, true, 7000⟩

/-- Counterexample to C4: the timer is read at line 75 of `src/tcpping.rs`,
BEFORE `to_socket_addrs()` runs, so an attempt whose resolution takes 5000 ns
and whose connection takes 7000 ns accumulates 12000 ns, not the 7000 ns of
the connection alone. -/
theorem C4_counterexample :
    (runAttempt 0 c4Attempt 0).sumDelta ≠ c4Attempt.connectNs ∧
    (runAttempt 0 c4Attempt 0).sumDelta =
      c4Attempt.resolveNs + c4Attempt.connectNs := by decide

/-- C4 (amended): the high-resolution timer is started before the
address-resolution step — the first event of every attempt is the timer
read at the attempt's start, followed by the resolution — so the measured
elapsed duration of a successful attempt covers the resolution step plus the
connection attempt. -/
theorem C4_timer_spans_resolution (pauseNs : Nat) (e : AttemptEnv) (t : Nat) :
    (runAttempt pauseNs e t).events.head? = some (.timerStart t) ∧
    ((runAttempt pauseNs e t).events.drop 1).head? =
      some (.resolve e.resolved.isSome) ∧
    (attemptSuccess e = true →
      (runAttempt pauseNs e t).sumDelta = e.resolveNs + e.connectNs) := by
  refine ⟨runAttempt_events_head pauseNs e t, ?_, fun h => ?_⟩
  · rcases e with ⟨res, rNs, cOk, cNs⟩
    match res, cOk with
    | none, _ => simp [runAttempt]
    | some [], _ => simp [runAttempt]
    | some (a :: rest), true => simp [runAttempt]
    | some (a :: rest), false => simp [runAttempt]
  · rw [runAttempt_sumDelta, h]
    simp [attemptElapsed]

/-- Witness for C4 (amended): a successful attempt measures resolution plus
connection time. -/
theorem C4_timer_spans_resolution_witness :
    (runAttempt 0 okAttempt 0).sumDelta =
      okAttempt.resolveNs + okAttempt.connectNs :=
  (C4_timer_spans_resolution 0 okAttempt 0).2.2 (by decide)

/-- C7: after each round, if the elapsed time is below the interval the loop
sleeps for exactly (interval − elapsed), otherwise it does not sleep at all;
hence the next round starts at least min(interval, elapsed processing time)
after this round started. -/
theorem C7_round_pacing (env : RoundEnv) (t : Nat) :
    (env.elapsedNs < (runRound env).intervalNs →
      (runRound env).sleepNs = (runRound env).intervalNs - env.elapsedNs) ∧
    ((runRound env).intervalNs ≤ env.elapsedNs →
      (runRound env).sleepNs = 0) ∧
    min (runRound env).intervalNs env.elapsedNs ≤ nextRoundStart t env - t := by
  have hs : (runRound env).sleepNs =
      if env.elapsedNs < (runRound env).intervalNs
      then (runRound env).intervalNs - env.elapsedNs else 0 := rfl
  have hn : nextRoundStart t env = t + env.elapsedNs + (runRound env).sleepNs := rfl
  refine ⟨fun h => ?_, fun h => ?_, ?_⟩
  · rw [hs, if_pos h]
  · rw [hs, if_neg (by omega)]
  · rw [hn, hs]
    by_cases h : env.elapsedNs < (runRound env).intervalNs
    · rw [if_pos h]
      omega
    · rw [if_neg h]
      omega

/-- A round that took 400 ms of processing against a 1000 ms interval. -/
def c7Round : RoundEnv :=
  ⟨cexOpt1, cexOpt1, 7, 100, fun _ _ => failAttempt, true, 400000000⟩

/-- Witness for C7: a round taking 400 ms against a 1000 ms interval sleeps
for 600 ms, and its spacing bound holds. -/
theorem C7_round_pacing_witness :
    (runRound c7Round).sleepNs = 600000000 ∧
    min (runRound c7Round).intervalNs c7Round.elapsedNs ≤
      nextRoundStart 0 c7Round - 0 := by
  have h := C7_round_pacing c7Round 0
  refine ⟨?_, h.2.2⟩
  rw [h.1 (by decide)]
  decide

/-- C8: a failed outbound send only sets the log flag: the assembled row, the
end-of-round sleep, and every other observable of the round are identical
whether or not the send succeeds, and the log line fires exactly when it
fails. -/
theorem C8_send_failure_nonfatal (env : RoundEnv) (b : Bool) :
    (runRound { env with sendOk := b }).row = (runRound env).row ∧
    (runRound { env with sendOk := b }).sleepNs = (runRound env).sleepNs ∧
    (runRound { env with sendOk := b }).usedAddrs = (runRound env).usedAddrs ∧
    ((runRound env).logged = true ↔ env.sendOk = false) := by
  refine ⟨rfl, rfl, rfl, ?_⟩
  cases hb : env.sendOk <;> simp [runRound, hb]

/-- C9: every per-target value field of an emitted row is either a
microsecond duration in `[0, SENTINEL_ERROR)` or exactly `SENTINEL_ERROR`,
provided each prober's truncated mean stays below `SENTINEL_ERROR`
microseconds (about 35.8 minutes — the 30-second connection timeout keeps
real means far below this, and the `as i32` cast is then the identity). -/
theorem C9_value_range (env : RoundEnv)
    (hb : ∀ a ∈ env.opt2.addrs,
      proberMeanMicros env.opt1.avg_across (env.opt1.pause * 1000000)
        (env.probe a) 0 < 2147483647) :
    ∀ v ∈ (runRound env).row.drop 3,
      (0 ≤ v ∧ v < SENTINEL_ERROR) ∨ v = SENTINEL_ERROR := by
  intro v hv
  have hd : (runRound env).row.drop 3 =
      (env.opt2.addrs.map (fun a => proberSent env.opt1.avg_across
        (env.opt1.pause * 1000000) (env.probe a) 0)).map outcomeToVal := rfl
  rw [hd] at hv
  rcases List.mem_map.mp hv with ⟨o, ho, rfl⟩
  rcases List.mem_map.mp ho with ⟨a, ha, rfl⟩
  cases hsent : proberSent env.opt1.avg_across (env.opt1.pause * 1000000)
      (env.probe a) 0 with
  | none => right; rfl
  | some w =>
      left
      have hw := proberSent_eq_some _ _ _ _ _ hsent
      have hm := hb a ha
      have hcast : u64ToI32 (proberMeanMicros env.opt1.avg_across
          (env.opt1.pause * 1000000) (env.probe a) 0) =
          (proberMeanMicros env.opt1.avg_across (env.opt1.pause * 1000000)
            (env.probe a) 0 : Nat) :=
        u64ToI32_of_lt _ (by omega)
      simp only [outcomeToVal, hw, hcast, SENTINEL_ERROR]
      constructor
      · exact Int.ofNat_nonneg _
      · exact_mod_cast hm

/-- A round whose single target never resolves: its value field is the
sentinel. -/
def c9Round : RoundEnv := ⟨cexOpt1, cexOpt1, 5, 50, fun _ _ => failAttempt, true, 0⟩

/-- Witness for C9: the first value field of a round whose target always
fails is in range — it is exactly the sentinel. -/
theorem C9_value_range_witness :
    (0 ≤ (runRound c9Round).row.getD 3 0 ∧
      (runRound c9Round).row.getD 3 0 < SENTINEL_ERROR) ∨
    (runRound c9Round).row.getD 3 0 = SENTINEL_ERROR := by
  have h := C9_value_range c9Round (by decide)
  exact h _ (by decide)

/-- An attempt whose resolution succeeds but yields no socket addresses. -/
def emptyResolveAttempt : AttemptEnv := ⟨some [], 4, false, 6⟩

/-- C10: an attempt connects only to the first resolved socket address — any
connect event targets the head of the resolution result — and when the
resolution yields an empty set no connection is attempted, nothing is
accumulated, and the attempt still ends with the usual pause. -/
theorem C10_first_address_only (pauseNs : Nat) (e : AttemptEnv) (t : Nat) :
    (e.resolved = some [] →
        (runAttempt pauseNs e t).denomDelta = 0 ∧
        (runAttempt pauseNs e t).sumDelta = 0 ∧
        (∀ ev ∈ (runAttempt pauseNs e t).events, ev.isConn = false) ∧
        (runAttempt pauseNs e t).events.getLast? = some (.sleep pauseNs)) ∧
    (∀ (a : Nat) (rest : List Nat), e.resolved = some (a :: rest) →
        ∀ ev ∈ (runAttempt pauseNs e t).events, ev.isConn = true →
          ev = .connect a e.connectOk) := by
  rcases e with ⟨res, rNs, cOk, cNs⟩
  constructor
  · intro h
    cases h
    refine ⟨rfl, rfl, ?_, rfl⟩
    intro ev hev
    simp [runAttempt] at hev
    rcases hev with h1 | h1 | h1 <;> simp [h1, ProbeEvent.isConn]
  · intro a rest h
    cases h
    intro ev hev hconn
    cases cOk <;> simp [runAttempt] at hev <;>
      rcases hev with h1 | h1 | h1 | h1 <;>
        first
          | (subst h1; rfl)
          | (subst h1; simp [ProbeEvent.isConn] at hconn)
          | (rcases h1 with h1 | h1 <;> subst h1 <;>
              simp [ProbeEvent.isConn] at hconn)

/-- Witness for C10: an attempt whose resolution yields an empty address set
accumulates nothing and ends with the pause. -/
theorem C10_first_address_only_witness :
    (runAttempt 9 emptyResolveAttempt 0).denomDelta = 0 ∧
    (runAttempt 9 emptyResolveAttempt 0).events.getLast? = some (.sleep 9) := by
  have h := (C10_first_address_only 9 emptyResolveAttempt 0).1 (by decide)
  exact ⟨h.1, h.2.2.2⟩

end Stabping
